import Mathlib

/-!
Verification of the JWT trust boundary of the UTS task-management
microservices repository: the gateway-side public-key cache
(`api-gateway/middleware/auth.js`: `fetchPublicKey`), the token verifier
middleware (`verifyJWT`, `optionalJWT`), the token issuer
(`jwt.sign` in the rest-api auth routes: register/login), the public
register handler, and the gateway's static route dispatch
(`api-gateway/server.js`).

Modelling conventions:
* Key material (PEM blobs) is abstracted to `Nat` identifiers: the signing
  private key and the verification public key of one RSA pair share an
  identifier, and signature verification succeeds exactly when the
  verifying key's identifier matches the signer's and the signature bytes
  are untampered (`sigValid`).
* Time is one `Nat` clock in milliseconds (`Date.now()`); jsonwebtoken's
  second-granularity claims use `now / 1000`.
* The network is an explicit oracle `FetchOutcome` passed to the functions
  that perform the axios call; "no network call happens" is expressed by
  the result not depending on the oracle.
* Async JS with shared module state (`publicKey`, `publicKeyLastFetched`)
  becomes explicit state passing of a `KeyCache` record; a `throw` becomes
  `Except.error`.
-/

namespace UTS

/-- Identifier of key material; one RSA key pair = one identifier shared by
its private and public halves. -/
abbrev KeyId := Nat

/-- The JWT payload the issuer signs and the verifier decodes:
`{ userId, email, role }` (plus `iat`/`exp`, kept on `Token`). -/
structure Claims where
  userId : String
  email : String
  role : String
deriving DecidableEq, Repr

/-- A well-formed signed token: payload claims, issued-at and expiry
timestamps in seconds (jsonwebtoken convention), the key pair whose private
half produced the signature, and whether the signature bytes are intact
(`sigValid = false` models a tampered signature). -/
structure Token where
  claims : Claims
  iat : Nat
  exp : Nat
  sigKey : KeyId
  sigValid : Bool
deriving DecidableEq, Repr

/-- The string after the `Bearer ` prefix of an Authorization header:
either a syntactically well-formed compact JWT or garbage that fails to
decode (`malformed`). -/
inductive TokenStr where
  | signed (t : Token)
  | malformed
deriving DecidableEq, Repr

/-- The value of an `Authorization` header: either it starts with the
`Bearer ` scheme (carrying a token string) or it does not. -/
inductive AuthHeaderVal where
  | bearer (ts : TokenStr)
  | notBearer
deriving DecidableEq, Repr

/-- An inbound HTTP request, restricted to the fields the auth layer
touches: the `Authorization` header and the three identity headers
`x-user-id`, `x-user-email`, `x-user-role` (which a caller may have
supplied). -/
structure Request where
  authHeader : Option AuthHeaderVal
  xUserId : Option String
  xUserEmail : Option String
  xUserRole : Option String
deriving DecidableEq, Repr

/-- Errors thrown by `jwt.verify` (jsonwebtoken): `JsonWebTokenError`
covers a malformed token body, an algorithm mismatch and an invalid
signature; `TokenExpiredError` is thrown for a passed `exp` claim. -/
inductive JwtError where
  | jsonWebTokenError
  | tokenExpiredError
deriving DecidableEq, Repr

/-- `jwt.verify(token, key, { algorithms: ['RS256'] })` of the jsonwebtoken
library, as called by the middleware. The library decodes the token (a
malformed body throws `JsonWebTokenError`), then verifies the signature
against the supplied public key (a mismatch throws `JsonWebTokenError`),
and only after a successful signature check tests the `exp` claim: it
throws `TokenExpiredError` when `clockTimestamp >= exp`, i.e. `exp ≤ now`.
On success it returns the decoded payload. -/
def jwtVerify (ts : TokenStr) (key : KeyId) (nowS : Nat) : Except JwtError Claims :=
  match ts with
  | .malformed => .error .jsonWebTokenError
  | .signed t =>
    if t.sigKey = key ∧ t.sigValid = true then
      if t.exp ≤ nowS then .error .tokenExpiredError
      else .ok t.claims
    else .error .jsonWebTokenError

/-- The gateway's module-level cache state: `let publicKey = null` and
`let publicKeyLastFetched = null` in `middleware/auth.js`. -/
structure KeyCache where
  publicKey : Option KeyId
  publicKeyLastFetched : Option Nat
deriving DecidableEq, Repr

/-- `PUBLIC_KEY_CACHE_DURATION = 3600000` — one hour in milliseconds. -/
def PUBLIC_KEY_CACHE_DURATION : Nat := 3600000

/-- Outcome of the `axios.get(restApiUrl + '/api/auth/public-key')` call:
either the response carries key material or the request fails (network
error, timeout, non-2xx). -/
inductive FetchOutcome where
  | success (key : KeyId)
  | failure
deriving DecidableEq, Repr

/-- The error `fetchPublicKey` throws on fetch failure:
`new Error('Unable to fetch public key for JWT verification')`. Its `name`
is the generic `Error`, so `verifyJWT`'s catch block does not match it to
`JsonWebTokenError` or `TokenExpiredError`. -/
inductive KeyFetchError where
  | unableToFetch
deriving DecidableEq, Repr

/-- The `try { ... axios.get ... } catch` block of `fetchPublicKey`: on a
successful response, assign `publicKey = response.data.publicKey` and
`publicKeyLastFetched = now` and return the key; on failure, throw without
touching the module state. -/
def attemptFetch (st : KeyCache) (now : Nat) (net : FetchOutcome) :
    Except KeyFetchError KeyId × KeyCache :=
  match net with
  | .success key => (.ok key, { publicKey := some key, publicKeyLastFetched := some now })
  | .failure => (.error .unableToFetch, st)

/-- `fetchPublicKey()` of `middleware/auth.js`. With `now = Date.now()`, if
`publicKey && publicKeyLastFetched && (now - publicKeyLastFetched <
PUBLIC_KEY_CACHE_DURATION)` it returns the cached key without any network
call; otherwise it attempts the fetch (`attemptFetch`). JS number
subtraction on a last-fetched timestamp in the future yields a negative
value, which is `< PUBLIC_KEY_CACHE_DURATION`, exactly as the truncated
`Nat` subtraction `now - last = 0` is; the JS falsiness of an epoch-0
timestamp and of an empty-string key is not reachable (timestamps and PEM
material are nonzero/nonempty) and is elided by the `Option` encoding. -/
def fetchPublicKey (st : KeyCache) (now : Nat) (net : FetchOutcome) :
    Except KeyFetchError KeyId × KeyCache :=
  match st.publicKey, st.publicKeyLastFetched with
  | some key, some last =>
      if now - last < PUBLIC_KEY_CACHE_DURATION then (.ok key, st)
      else attemptFetch st now net
  | some _, none => attemptFetch st now net
  | none, _ => attemptFetch st now net

/-- The cache-freshness test of `fetchPublicKey`'s first `if`: a key and a
timestamp are present and the timestamp is younger than one hour. -/
def cacheFresh (st : KeyCache) (now : Nat) : Bool :=
  match st.publicKey, st.publicKeyLastFetched with
  | some _, some last => now - last < PUBLIC_KEY_CACHE_DURATION
  | _, _ => false

/-- What a middleware does with a request: answer it directly with
`res.status(s).json({ error, message })` (`respond`), or call `next()`
passing the (possibly header-mutated) request on (`forward`). -/
inductive MwResult where
  | respond (status : Nat) (error message : String)
  | forward (req : Request)
deriving DecidableEq, Repr

/-- The three header assignments
`req.headers['x-user-id'] = decoded.userId` etc. performed after a
successful `jwt.verify`. -/
def setIdentity (req : Request) (c : Claims) : Request :=
  { req with xUserId := some c.userId, xUserEmail := some c.email, xUserRole := some c.role }

/-- `verifyJWT(req, res, next)` of `middleware/auth.js`. A missing header
or one not starting with `Bearer ` answers 401 `No token provided`;
otherwise the key is obtained via `fetchPublicKey` (a throw there reaches
the catch block, whose generic-`Error` branch answers 500
`Token verification failed`); then `jwt.verify` runs: a
`JsonWebTokenError` answers 401 `Invalid token`, a `TokenExpiredError`
answers 401 `Token expired`, and on success the decoded claims overwrite
the identity headers and `next()` forwards the request. -/
def verifyJWT (req : Request) (st : KeyCache) (now : Nat) (net : FetchOutcome) :
    MwResult × KeyCache :=
  match req.authHeader with
  | none => (.respond 401 "Unauthorized" "No token provided", st)
  | some .notBearer => (.respond 401 "Unauthorized" "No token provided", st)
  | some (.bearer ts) =>
    match fetchPublicKey st now net with
    | (.error _, st') => (.respond 500 "Internal server error" "Token verification failed", st')
    | (.ok key, st') =>
      match jwtVerify ts key (now / 1000) with
      | .error .jsonWebTokenError => (.respond 401 "Unauthorized" "Invalid token", st')
      | .error .tokenExpiredError => (.respond 401 "Unauthorized" "Token expired", st')
      | .ok c => (.forward (setIdentity req c), st')

/-- `optionalJWT(req, res, next)` of `middleware/auth.js`: same pipeline as
`verifyJWT`, but a missing/non-bearer header forwards immediately and the
catch block swallows every error (key-fetch failure, invalid or expired
token) and forwards the request untouched. -/
def optionalJWT (req : Request) (st : KeyCache) (now : Nat) (net : FetchOutcome) :
    MwResult × KeyCache :=
  match req.authHeader with
  | none => (.forward req, st)
  | some .notBearer => (.forward req, st)
  | some (.bearer ts) =>
    match fetchPublicKey st now net with
    | (.error _, st') => (.forward req, st')
    | (.ok key, st') =>
      match jwtVerify ts key (now / 1000) with
      | .error _ => (.forward req, st')
      | .ok c => (.forward (setIdentity req c), st')

/-- `jwt.sign({ userId, email, role }, privateKey, { algorithm: 'RS256',
expiresIn: '24h' })` as called by the register and login routes of the
rest-api auth router: claims as given, `iat = nowS`,
`exp = nowS + 86400` (24 h in seconds), signed with the private half of
key pair `keyId`, signature intact. -/
def signToken (userId email role : String) (keyId : KeyId) (nowS : Nat) : Token :=
  { claims := { userId := userId, email := email, role := role },
    iat := nowS, exp := nowS + 86400, sigKey := keyId, sigValid := true }

/-- A stored user record of the rest-api in-memory `users` array, minus the
ISO timestamp bookkeeping fields (`createdAt`/`updatedAt`), which no claim
touches. -/
structure User where
  id : String
  name : String
  email : String
  password : String
  role : String
deriving DecidableEq, Repr

/-- The JSON body of a `POST /api/auth/register` request; each field may be
absent. -/
structure RegisterBody where
  name : Option String
  email : Option String
  password : Option String
  role : Option String
deriving DecidableEq, Repr

/-- JS truthiness of the destructured body fields as tested by
`if (!name || !email || !password)`: absent (`undefined`) and the empty
string are falsy. -/
def truthyStr (s : Option String) : Bool :=
  match s with
  | none => false
  | some v => v ≠ ""

/-- Stand-in for `bcrypt.hash(password, 10)`: an injective tagging of the
password. The claims never inspect hash contents, only that the stored
record carries the hashed (not plain) password field. -/
def bcryptHash (password : String) : String :=
  "bcrypt10$" ++ password

/-- Response of the register route: 400 on missing fields, 409 on a
duplicate email, 201 with the stored user and a freshly signed token on
success. -/
inductive RegisterResult where
  | badRequest
  | conflict
  | created (user : User) (token : Token)
deriving DecidableEq, Repr

/-- `router.post('/register')` of the rest-api auth routes.
`const { name, email, password, role = 'user' } = req.body`: the role
defaults to `'user'` only when the body carries no role field. Missing or
empty name/email/password answer 400; an existing user with the same email
answers 409; otherwise the new user (with bcrypt-hashed password and the
caller-supplied role) is pushed onto `users` and a token over
`{ userId: newUser.id, email: newUser.email, role: newUser.role }` is
signed. `newId` stands for the generated `uuidv4()`. -/
def register (body : RegisterBody) (users : List User) (newId : String)
    (keyId : KeyId) (nowS : Nat) : RegisterResult × List User :=
  if ¬ (truthyStr body.name = true ∧ truthyStr body.email = true ∧
        truthyStr body.password = true) then
    (.badRequest, users)
  else
    let name := body.name.getD ""
    let email := body.email.getD ""
    let password := body.password.getD ""
    let role := body.role.getD "user"
    if users.any (fun u => u.email = email) then
      (.conflict, users)
    else
      let newUser : User :=
        { id := newId, name := name, email := email,
          password := bcryptHash password, role := role }
      let token := signToken newUser.id newUser.email newUser.role keyId nowS
      (.created newUser token, users ++ [newUser])

/-- The two downstream services the gateway proxies to. -/
inductive Backend where
  | restApi
  | graphqlApi
deriving DecidableEq, Repr

/-- HTTP request methods, as far as route matching distinguishes them. -/
inductive HttpMethod where
  | GET
  | POST
  | PUT
  | DELETE
  | OTHER
deriving DecidableEq, Repr

/-- Express mount-path matching for `app.use(mount, handler)`: the request
path equals the mount path or continues it at a `/` boundary (computed on
the character lists so the kernel can evaluate it). -/
def mountMatches (mount path : String) : Bool :=
  path = mount || (mount.data ++ ['/']).isPrefixOf path.data

/-- Terminal outcome of the gateway for one request: the `/health` JSON,
a proxy-forward to a backend (with the request as the middleware left it),
a rejection written by `verifyJWT`, the GET-only catch-all 404 JSON
(`Route not found` with the `availableRoutes` list), or Express's default
404 final handler, which answers any request no registered route matched
(the catch-all is registered with `app.get`, so non-GET requests to
unmatched paths fall through to it). -/
inductive RouteResult where
  | health
  | forwarded (b : Backend) (req : Request)
  | rejected (status : Nat) (error message : String)
  | notFoundJson
  | defaultNotFound
deriving DecidableEq, Repr

/-- The HTTP status the gateway answers with, `none` when the request is
forwarded to a backend instead. The catch-all JSON and Express's default
final handler both answer 404. -/
def RouteResult.statusOf : RouteResult → Option Nat
  | .health => some 200
  | .forwarded _ _ => none
  | .rejected s _ _ => some s
  | .notFoundJson => some 404
  | .defaultNotFound => some 404

/-- Whether the gateway forwarded the request to a backend. -/
def RouteResult.isForwarded : RouteResult → Bool
  | .forwarded _ _ => true
  | _ => false

/-- `app.use(mount, verifyJWT, proxy)`: run `verifyJWT`; a `respond`
becomes the gateway's own answer, a `forward` goes to the proxy for
backend `b`. -/
def protectedDispatch (b : Backend) (req : Request) (st : KeyCache)
    (now : Nat) (net : FetchOutcome) : RouteResult × KeyCache :=
  match verifyJWT req st now net with
  | (.respond s e m, st') => (.rejected s e m, st')
  | (.forward r, st') => (.forwarded b r, st')

/-- The gateway's route dispatch (`api-gateway/server.js`), in registration
order: `app.get('/health', ...)`; the public mounts
`/api/auth/login`, `/api/auth/register`, `/api/auth/public-key` proxied to
the rest-api without verification; the protected mounts `/api/auth/me`,
`/api/users`, `/api/teams` (rest-api) and `/graphql` (graphql-api) behind
`verifyJWT`; then the `app.get('*')` 404 catch-all, and Express's default
404 final handler for everything else. -/
def route (m : HttpMethod) (path : String) (req : Request) (st : KeyCache)
    (now : Nat) (net : FetchOutcome) : RouteResult × KeyCache :=
  if m = HttpMethod.GET ∧ path = "/health" then (.health, st)
  else if mountMatches "/api/auth/login" path then (.forwarded .restApi req, st)
  else if mountMatches "/api/auth/register" path then (.forwarded .restApi req, st)
  else if mountMatches "/api/auth/public-key" path then (.forwarded .restApi req, st)
  else if mountMatches "/api/auth/me" path then protectedDispatch .restApi req st now net
  else if mountMatches "/api/users" path then protectedDispatch .restApi req st now net
  else if mountMatches "/api/teams" path then protectedDispatch .restApi req st now net
  else if mountMatches "/graphql" path then protectedDispatch .graphqlApi req st now net
  else if m = HttpMethod.GET then (.notFoundJson, st)
  else (.defaultNotFound, st)

/-- The static route classification table of the gateway: the paths some
registered route (other than the catch-all) matches. `/health` is matched
exactly, the mounts by Express prefix matching. -/
def matchesRouteTable (path : String) : Bool :=
  path = "/health" ||
  ["/api/auth/login", "/api/auth/register", "/api/auth/public-key",
   "/api/auth/me", "/api/users", "/api/teams", "/graphql"].any
    (fun mount => mountMatches mount path)

end UTS

/-- Inversion of `verifyJWT`'s success path, shared by several results:
a forwarded request can only arise from a bearer header carrying a
well-formed token whose verification under the fetched key succeeded, and
the forwarded request is the original with its identity headers overwritten
by the token's claims. -/
theorem verifyJWT_forward_inv
    (req : UTS.Request) (st : UTS.KeyCache) (now : Nat) (net : UTS.FetchOutcome)
    (r : UTS.Request)
    (hfwd : (UTS.verifyJWT req st now net).1 = .forward r) :
    ∃ (t : UTS.Token) (key : UTS.KeyId),
      req.authHeader = some (.bearer (.signed t)) ∧
      (UTS.fetchPublicKey st now net).1 = .ok key ∧
      UTS.jwtVerify (.signed t) key (now / 1000) = .ok t.claims ∧
      r = UTS.setIdentity req t.claims := by
  rcases hah : req.authHeader with _ | av
  · simp [UTS.verifyJWT, hah] at hfwd
  rcases av with ts | _
  · rcases hfk : UTS.fetchPublicKey st now net with ⟨res, st2⟩
    rcases res with e | key
    · simp [UTS.verifyJWT, hah, hfk] at hfwd
    · rcases hjv : UTS.jwtVerify ts key (now / 1000) with e | c
      · cases e <;> simp [UTS.verifyJWT, hah, hfk, hjv] at hfwd
      · rcases ts with t | _
        · have hc : c = t.claims := by
            simp only [UTS.jwtVerify] at hjv
            split at hjv
            · split at hjv
              · simp at hjv
              · simpa using hjv.symm
            · simp at hjv
          subst hc
          refine ⟨t, key, rfl, by simp [hfk], hjv, ?_⟩
          simp [UTS.verifyJWT, hah, hfk, hjv] at hfwd
          exact hfwd.symm
        · simp [UTS.jwtVerify] at hjv
  · simp [UTS.verifyJWT, hah] at hfwd

/-- C3: whenever `verifyJWT` forwards a request, the identity headers
attached to it are exactly the claims decoded from the bearer token of the
original request, and they do not depend on the identity-header values the
caller supplied: verifying the same request with the identity headers
replaced by arbitrary values forwards with identical identity headers
(caller-supplied values are overwritten by the annotation). -/
theorem verifyJWT_identity_headers_from_claims
    (req : UTS.Request) (st : UTS.KeyCache) (now : Nat) (net : UTS.FetchOutcome)
    (r : UTS.Request)
    (hfwd : (UTS.verifyJWT req st now net).1 = .forward r) :
    (∃ t : UTS.Token,
      req.authHeader = some (.bearer (.signed t)) ∧
      r.xUserId = some t.claims.userId ∧
      r.xUserEmail = some t.claims.email ∧
      r.xUserRole = some t.claims.role) ∧
    (∀ (a b c : Option String) (r' : UTS.Request),
      (UTS.verifyJWT { req with xUserId := a, xUserEmail := b, xUserRole := c }
          st now net).1 = .forward r' →
      r'.xUserId = r.xUserId ∧ r'.xUserEmail = r.xUserEmail ∧
      r'.xUserRole = r.xUserRole) := by
  obtain ⟨t, key, hah, hfk, hjv, hr⟩ :=
    verifyJWT_forward_inv req st now net r hfwd
  constructor
  · exact ⟨t, hah, by simp [hr, UTS.setIdentity], by simp [hr, UTS.setIdentity],
      by simp [hr, UTS.setIdentity]⟩
  · intro a b c r' hfwd'
    obtain ⟨t', key', hah', hfk', hjv', hr'⟩ :=
      verifyJWT_forward_inv _ st now net r' hfwd'
    have hsame : some (UTS.AuthHeaderVal.bearer (.signed t'))
        = some (UTS.AuthHeaderVal.bearer (.signed t)) := by
      rw [← hah', ← hah]
    have ht : t' = t := by
      simpa using hsame
    subst ht
    simp [hr, hr', UTS.setIdentity]

/-- C3, witness: a fresh cache holding key 5 and a valid token for
`{u1, a@example.com, admin}`; the caller-supplied `x-user-id: evil` is
overwritten by `u1` in the forwarded request. -/
theorem verifyJWT_identity_headers_from_claims_witness :
    ((UTS.verifyJWT
        ⟨some (.bearer (.signed (UTS.signToken "u1" "a@example.com" "admin" 5 0))),
          some "evil", none, none⟩
        ⟨some 5, some 0⟩ 1000 .failure).1
      = .forward (UTS.setIdentity
          ⟨some (.bearer (.signed (UTS.signToken "u1" "a@example.com" "admin" 5 0))),
            some "evil", none, none⟩
          ⟨"u1", "a@example.com", "admin"⟩)) ∧
    (∃ t : UTS.Token,
      (⟨some (.bearer (.signed (UTS.signToken "u1" "a@example.com" "admin" 5 0))),
          some "evil", none, none⟩ : UTS.Request).authHeader
        = some (.bearer (.signed t)) ∧
      (UTS.setIdentity
          ⟨some (.bearer (.signed (UTS.signToken "u1" "a@example.com" "admin" 5 0))),
            some "evil", none, none⟩
          ⟨"u1", "a@example.com", "admin"⟩).xUserId = some t.claims.userId ∧
      (UTS.setIdentity
          ⟨some (.bearer (.signed (UTS.signToken "u1" "a@example.com" "admin" 5 0))),
            some "evil", none, none⟩
          ⟨"u1", "a@example.com", "admin"⟩).xUserEmail = some t.claims.email ∧
      (UTS.setIdentity
          ⟨some (.bearer (.signed (UTS.signToken "u1" "a@example.com" "admin" 5 0))),
            some "evil", none, none⟩
          ⟨"u1", "a@example.com", "admin"⟩).xUserRole = some t.claims.role) :=
  ⟨rfl,
   (verifyJWT_identity_headers_from_claims
      ⟨some (.bearer (.signed (UTS.signToken "u1" "a@example.com" "admin" 5 0))),
        some "evil", none, none⟩
      ⟨some 5, some 0⟩ 1000 .failure
      (UTS.setIdentity
        ⟨some (.bearer (.signed (UTS.signToken "u1" "a@example.com" "admin" 5 0))),
          some "evil", none, none⟩
        ⟨"u1", "a@example.com", "admin"⟩) rfl).1⟩

/-- C2, counterexample: in soft mode a request with no credential but a
caller-supplied `x-user-id: evil` header is forwarded with that header
still present — the forwarded request does carry a caller-supplied value in
an identity header field, refuting the claim's no-caller-values part. -/
theorem optionalJWT_caller_header_passes_cex :
    (UTS.optionalJWT ⟨none, some "evil", none, none⟩ ⟨none, none⟩ 0 .failure).1
      = .forward ⟨none, some "evil", none, none⟩ ∧
    (⟨none, some "evil", none, none⟩ : UTS.Request).xUserId = some "evil" := by
  exact ⟨rfl, rfl⟩

/-- C2, amended: in soft mode the request is always forwarded, never
rejected; on every Verifier failure (any input on which `verifyJWT` would
respond with an error) it is forwarded completely unchanged — the gateway
attaches no identity headers itself, but caller-supplied values under the
identity header names are not stripped and pass through untouched. -/
theorem optionalJWT_failure_forwards
    (req : UTS.Request) (st : UTS.KeyCache) (now : Nat) (net : UTS.FetchOutcome) :
    (∃ r, (UTS.optionalJWT req st now net).1 = .forward r) ∧
    (∀ s e m, (UTS.verifyJWT req st now net).1 = .respond s e m →
      (UTS.optionalJWT req st now net).1 = .forward req) := by
  rcases hah : req.authHeader with _ | av
  · exact ⟨⟨req, by simp [UTS.optionalJWT, hah]⟩,
      fun s e m _ => by simp [UTS.optionalJWT, hah]⟩
  rcases av with ts | _
  · rcases hfk : UTS.fetchPublicKey st now net with ⟨res, st2⟩
    rcases res with e | key
    · exact ⟨⟨req, by simp [UTS.optionalJWT, hah, hfk]⟩,
        fun s e m _ => by simp [UTS.optionalJWT, hah, hfk]⟩
    · rcases hjv : UTS.jwtVerify ts key (now / 1000) with e | c
      · exact ⟨⟨req, by simp [UTS.optionalJWT, hah, hfk, hjv]⟩,
          fun s e m _ => by simp [UTS.optionalJWT, hah, hfk, hjv]⟩
      · refine ⟨⟨UTS.setIdentity req c, by simp [UTS.optionalJWT, hah, hfk, hjv]⟩,
          fun s e m hresp => ?_⟩
        simp [UTS.verifyJWT, hah, hfk, hjv] at hresp
  · exact ⟨⟨req, by simp [UTS.optionalJWT, hah]⟩,
      fun s e m _ => by simp [UTS.optionalJWT, hah]⟩

/-- C2, witness: with an expired token and an empty cache whose fetch
fails, `verifyJWT` would respond 500, while `optionalJWT` forwards the
request unchanged. -/
theorem optionalJWT_failure_forwards_witness :
    (∃ r, (UTS.optionalJWT ⟨some (.bearer .malformed), some "evil", none, none⟩
        ⟨none, none⟩ 0 .failure).1 = .forward r) ∧
    (UTS.optionalJWT ⟨some (.bearer .malformed), some "evil", none, none⟩
        ⟨none, none⟩ 0 .failure).1
      = .forward ⟨some (.bearer .malformed), some "evil", none, none⟩ :=
  ⟨(optionalJWT_failure_forwards ⟨some (.bearer .malformed), some "evil", none, none⟩
      ⟨none, none⟩ 0 .failure).1,
   (optionalJWT_failure_forwards ⟨some (.bearer .malformed), some "evil", none, none⟩
      ⟨none, none⟩ 0 .failure).2 500 "Internal server error"
      "Token verification failed" rfl⟩

/-- C5: round-trip — a token issued by the register/login signing call for
`(userId, email, role)` at time `iatS` and verified before its 24-hour
expiry against the matching public key decodes successfully to exactly
those claims; and through the middleware, a request bearing such a token
verified with a fresh cache holding the matching key is forwarded annotated
with exactly those claims. -/
theorem issue_verify_roundtrip
    (userId email role : String) (keyId : UTS.KeyId) (iatS nowS : Nat)
    (h : nowS < iatS + 86400) :
    UTS.jwtVerify (.signed (UTS.signToken userId email role keyId iatS)) keyId nowS
      = .ok { userId := userId, email := email, role := role } ∧
    ∀ (req : UTS.Request) (last nowMs : Nat) (net : UTS.FetchOutcome),
      req.authHeader
        = some (.bearer (.signed (UTS.signToken userId email role keyId iatS))) →
      nowMs - last < UTS.PUBLIC_KEY_CACHE_DURATION →
      nowMs / 1000 = nowS →
      UTS.verifyJWT req ⟨some keyId, some last⟩ nowMs net
        = (.forward (UTS.setIdentity req ⟨userId, email, role⟩),
           ⟨some keyId, some last⟩) := by
  have hne : ¬ (iatS + 86400 ≤ nowS) := by omega
  have hjv : UTS.jwtVerify
      (.signed (UTS.signToken userId email role keyId iatS)) keyId nowS
      = .ok { userId := userId, email := email, role := role } := by
    simp [UTS.jwtVerify, UTS.signToken, hne]
  refine ⟨hjv, fun req last nowMs net hauth hfresh hnow => ?_⟩
  simp [UTS.verifyJWT, hauth, UTS.fetchPublicKey, hfresh, hnow, hjv]

/-- C5, witness: issue for `(u1, a@example.com, admin)` with key pair 5 at
second 0, verify at second 100 (cache fetched at ms 0, now ms 100000). -/
theorem issue_verify_roundtrip_witness :
    UTS.jwtVerify (.signed (UTS.signToken "u1" "a@example.com" "admin" 5 0)) 5 100
      = .ok { userId := "u1", email := "a@example.com", role := "admin" } ∧
    UTS.verifyJWT
        ⟨some (.bearer (.signed (UTS.signToken "u1" "a@example.com" "admin" 5 0))),
          none, none, none⟩
        ⟨some 5, some 0⟩ 100000 .failure
      = (.forward (UTS.setIdentity
          ⟨some (.bearer (.signed (UTS.signToken "u1" "a@example.com" "admin" 5 0))),
            none, none, none⟩
          ⟨"u1", "a@example.com", "admin"⟩),
         ⟨some 5, some 0⟩) :=
  ⟨(issue_verify_roundtrip "u1" "a@example.com" "admin" 5 0 100 (by decide)).1,
   (issue_verify_roundtrip "u1" "a@example.com" "admin" 5 0 100 (by decide)).2
     ⟨some (.bearer (.signed (UTS.signToken "u1" "a@example.com" "admin" 5 0))),
       none, none, none⟩ 0 100000 .failure rfl (by decide) (by decide)⟩

/-- C6, counterexample: a token whose `exp` (second 0) lies strictly in the
past at verification time (second 1000) but whose signature is tampered is
rejected as `Invalid token` (the invalid-credential kind), not
`Token expired` — the expired kind is not produced regardless of signature
validity, because jsonwebtoken checks the signature first. -/
theorem expired_tampered_token_invalid_kind_cex :
    UTS.verifyJWT
        ⟨some (.bearer (.signed { claims := ⟨"u", "e", "r"⟩, iat := 0, exp := 0,
                                  sigKey := 5, sigValid := false })), none, none, none⟩
        ⟨some 5, some 0⟩ 1000000 .failure
      = (.respond 401 "Unauthorized" "Invalid token", ⟨some 5, some 0⟩) ∧
    ("Invalid token" : String) ≠ "Token expired" := by
  exact ⟨rfl, by decide⟩

/-- C6, amended: for every credential whose signature is valid under the
verification key the cache supplies, an `expiresAt` strictly in the past
makes `verifyJWT` respond 401 `Token expired` (the expired-credential kind,
distinct from the invalid-credential 401 `Invalid token`); a credential
with an invalid signature yields the invalid-credential kind even when
expired, since the signature is checked before expiry. -/
theorem verifyJWT_expired_valid_sig_expired_kind
    (req : UTS.Request) (st : UTS.KeyCache) (now : Nat) (net : UTS.FetchOutcome)
    (t : UTS.Token) (key : UTS.KeyId) (st' : UTS.KeyCache)
    (hauth : req.authHeader = some (.bearer (.signed t)))
    (hkey : UTS.fetchPublicKey st now net = (.ok key, st'))
    (hsig : t.sigKey = key) (hvalid : t.sigValid = true)
    (hexp : t.exp < now / 1000) :
    UTS.verifyJWT req st now net
      = (.respond 401 "Unauthorized" "Token expired", st') := by
  simp [UTS.verifyJWT, hauth, hkey, UTS.jwtVerify, hsig, hvalid,
    Nat.le_of_lt hexp]

/-- C6, witness: a validly signed token expired at second 0, verified at
second 1000 with a fresh cache holding the matching key 5. -/
theorem verifyJWT_expired_valid_sig_expired_kind_witness :
    UTS.fetchPublicKey ⟨some 5, some 0⟩ 1000000 .failure
      = (.ok 5, ⟨some 5, some 0⟩) ∧
    (0 : Nat) < 1000000 / 1000 ∧
    UTS.verifyJWT
        ⟨some (.bearer (.signed { claims := ⟨"u", "e", "r"⟩, iat := 0, exp := 0,
                                  sigKey := 5, sigValid := true })), none, none, none⟩
        ⟨some 5, some 0⟩ 1000000 .failure
      = (.respond 401 "Unauthorized" "Token expired", ⟨some 5, some 0⟩) :=
  ⟨rfl, by decide,
   verifyJWT_expired_valid_sig_expired_kind
     ⟨some (.bearer (.signed { claims := ⟨"u", "e", "r"⟩, iat := 0, exp := 0,
                               sigKey := 5, sigValid := true })), none, none, none⟩
     ⟨some 5, some 0⟩ 1000000 .failure
     { claims := ⟨"u", "e", "r"⟩, iat := 0, exp := 0, sigKey := 5, sigValid := true }
     5 ⟨some 5, some 0⟩ rfl rfl rfl rfl (by decide)⟩

/-- C7: when no key has ever been cached and the fetch fails, any request
presenting a bearer credential is answered by `verifyJWT` itself with the
500-class `Internal server error / Token verification failed` response —
distinct from every 401 Unauthenticated response — and is not forwarded to
a backend. -/
theorem verifyJWT_no_key_responds_500
    (req : UTS.Request) (ts : UTS.TokenStr) (lf : Option Nat) (now : Nat)
    (hauth : req.authHeader = some (.bearer ts)) :
    UTS.verifyJWT req ⟨none, lf⟩ now .failure
      = (.respond 500 "Internal server error" "Token verification failed",
         ⟨none, lf⟩) ∧
    ∀ r, (UTS.verifyJWT req ⟨none, lf⟩ now .failure).1 ≠ .forward r := by
  have h : UTS.verifyJWT req ⟨none, lf⟩ now .failure
      = (.respond 500 "Internal server error" "Token verification failed",
         ⟨none, lf⟩) := by
    simp [UTS.verifyJWT, hauth, UTS.fetchPublicKey, UTS.attemptFetch]
  exact ⟨h, fun r => by simp [h]⟩

/-- C7, witness: a bearer request against the never-populated cache with an
unreachable key store is answered 500 and not forwarded. -/
theorem verifyJWT_no_key_responds_500_witness :
    UTS.verifyJWT ⟨some (.bearer .malformed), none, none, none⟩
        ⟨none, none⟩ 0 .failure
      = (.respond 500 "Internal server error" "Token verification failed",
         ⟨none, none⟩) :=
  (verifyJWT_no_key_responds_500 ⟨some (.bearer .malformed), none, none, none⟩
    .malformed none 0 rfl).1

/-- C1, counterexample: a key was cached (fetched at time 0), the freshness
window has lapsed at time 3600000, and the refresh fetch fails — yet
`fetchPublicKey` throws `Unable to fetch public key` instead of returning
the old cached key 7, refuting the claimed stale-serving. -/
theorem fetchPublicKey_stale_serving_cex :
    UTS.fetchPublicKey ⟨some 7, some 0⟩ 3600000 .failure
      = (.error .unableToFetch, ⟨some 7, some 0⟩) := by
  rfl

/-- C1, amended: whenever the cache is not fresh (absent, or at least one
hour old), a failing refresh fetch makes `fetchPublicKey` throw the
key-unavailable error and leaves the cache as it was — even when a
previously cached (now stale) key still exists. The cached key is served
only while fresh; stale-serving is not implemented. -/
theorem fetchPublicKey_no_stale_serving (st : UTS.KeyCache) (now : Nat)
    (h : UTS.cacheFresh st now = false) :
    UTS.fetchPublicKey st now .failure = (.error .unableToFetch, st) := by
  rcases st with ⟨pk, lf⟩
  cases pk <;> cases lf <;>
    simp_all [UTS.cacheFresh, UTS.fetchPublicKey, UTS.attemptFetch]

/-- C1, witness for the amended theorem: at time 3600000 a key cached at
time 0 is stale, and the call with a failing fetch errors out. -/
theorem fetchPublicKey_no_stale_serving_witness :
    UTS.cacheFresh ⟨some 7, some 0⟩ 3600000 = false ∧
    UTS.fetchPublicKey ⟨some 7, some 0⟩ 3600000 .failure
      = (.error .unableToFetch, ⟨some 7, some 0⟩) :=
  ⟨by decide, fetchPublicKey_no_stale_serving ⟨some 7, some 0⟩ 3600000 (by decide)⟩

/-- C4: in any state whose cache holds a key fetched less than one hour
ago, `fetchPublicKey` returns exactly the cached key material and the
unchanged cache state, for every network outcome — so no fetch is
performed (the result does not depend on the network) and repeated calls
in the window are idempotent. -/
theorem fetchPublicKey_fresh_idempotent (key last now : Nat)
    (net : UTS.FetchOutcome)
    (h : now - last < UTS.PUBLIC_KEY_CACHE_DURATION) :
    UTS.fetchPublicKey ⟨some key, some last⟩ now net
      = (.ok key, ⟨some key, some last⟩) := by
  simp [UTS.fetchPublicKey, h]

/-- C4, witness: a key cached at time 0 queried at time 10 (well inside
the hour) is returned unchanged even though the network would fail. -/
theorem fetchPublicKey_fresh_idempotent_witness :
    (10 : Nat) - 0 < UTS.PUBLIC_KEY_CACHE_DURATION ∧
    UTS.fetchPublicKey ⟨some 7, some 0⟩ 10 .failure
      = (.ok 7, ⟨some 7, some 0⟩) :=
  ⟨by decide, fetchPublicKey_fresh_idempotent 7 0 10 .failure (by decide)⟩

/-- C10: a failing fetch never mutates the cache — `fetchPublicKey` with a
failing network outcome always returns the input state (throwing when the
cache was not fresh); and whenever a call does change the state, the
network outcome was a success, and the call replaced key material and
timestamp together and returned the new key. -/
theorem fetchPublicKey_failure_preserves_cache (st : UTS.KeyCache)
    (now : Nat) (net : UTS.FetchOutcome) :
    (UTS.fetchPublicKey st now .failure).2 = st ∧
    ((UTS.fetchPublicKey st now net).2 ≠ st →
      ∃ k, net = .success k ∧
        UTS.fetchPublicKey st now net = (.ok k, ⟨some k, some now⟩)) := by
  rcases st with ⟨pk, lf⟩
  constructor
  · cases pk <;> cases lf <;>
      simp only [UTS.fetchPublicKey, UTS.attemptFetch] <;>
      (try split) <;> rfl
  · intro h
    cases net with
    | failure =>
      exact absurd
        (by cases pk <;> cases lf <;>
          simp only [UTS.fetchPublicKey, UTS.attemptFetch] <;>
          (try split) <;> rfl) h
    | success k =>
      refine ⟨k, rfl, ?_⟩
      cases pk <;> cases lf <;>
        simp only [UTS.fetchPublicKey, UTS.attemptFetch] at h ⊢ <;>
        (try split at h) <;> simp_all

/-- C10, witness: on an empty cache a failing fetch leaves the state empty,
and a successful fetch of key 9 at time 5 installs key and timestamp
together. -/
theorem fetchPublicKey_failure_preserves_cache_witness :
    (UTS.fetchPublicKey ⟨none, none⟩ 5 .failure).2 = (⟨none, none⟩ : UTS.KeyCache) ∧
    (∃ k, UTS.FetchOutcome.success 9 = UTS.FetchOutcome.success k ∧
      UTS.fetchPublicKey ⟨none, none⟩ 5 (.success 9) = (.ok k, ⟨some k, some 5⟩)) :=
  ⟨(fetchPublicKey_failure_preserves_cache ⟨none, none⟩ 5 (.success 9)).1,
   (fetchPublicKey_failure_preserves_cache ⟨none, none⟩ 5 (.success 9)).2 (by decide)⟩

/-- C8: a request whose path matches no entry of the gateway's route table
(neither `/health` nor any registered mount) is answered with a 404 — the
JSON `Route not found` catch-all for GET requests, Express's default 404
final handler for every other method — and is never forwarded to a
backend, whatever the method, headers, cache state or network outcome. -/
theorem route_unmatched_404_not_forwarded
    (m : UTS.HttpMethod) (path : String) (req : UTS.Request)
    (st : UTS.KeyCache) (now : Nat) (net : UTS.FetchOutcome)
    (h : UTS.matchesRouteTable path = false) :
    ((UTS.route m path req st now net).1).statusOf = some 404 ∧
    ((UTS.route m path req st now net).1).isForwarded = false := by
  simp only [UTS.matchesRouteTable, List.any_cons, List.any_nil,
    Bool.or_eq_false_iff, decide_eq_false_iff_not] at h
  obtain ⟨h0, h1, h2, h3, h4, h5, h6, h7, -⟩ := h
  have hfirst : ¬ (m = UTS.HttpMethod.GET ∧ path = "/health") := by
    rintro ⟨-, hp⟩; exact h0 hp
  simp only [UTS.route, hfirst, h1, h2, h3, h4, h5, h6, h7, if_false,
    Bool.false_eq_true, if_neg]
  split <;> exact ⟨rfl, rfl⟩

/-- C8, witness: a POST (and any other method) to the unregistered path
`/nope` yields status 404 and is not forwarded. -/
theorem route_unmatched_404_not_forwarded_witness :
    UTS.matchesRouteTable "/nope" = false ∧
    ((UTS.route .POST "/nope" ⟨none, none, none, none⟩ ⟨none, none⟩ 0
        .failure).1).statusOf = some 404 ∧
    ((UTS.route .POST "/nope" ⟨none, none, none, none⟩ ⟨none, none⟩ 0
        .failure).1).isForwarded = false :=
  ⟨by decide,
   (route_unmatched_404_not_forwarded .POST "/nope" ⟨none, none, none, none⟩
     ⟨none, none⟩ 0 .failure (by decide)).1,
   (route_unmatched_404_not_forwarded .POST "/nope" ⟨none, none, none, none⟩
     ⟨none, none⟩ 0 .failure (by decide)).2⟩

/-- C9: whenever the public register handler succeeds, the stored user's
role and the role claim of the credential it signs both equal the
caller-supplied `role` body field when present and default to `user` only
when the field is absent; and the register route is public — the gateway
forwards any `POST /api/auth/register` to the rest-api without invoking
the verifier, so an unauthenticated caller can obtain a credential bearing
any role, including `admin`. -/
theorem register_role_from_body
    (body : UTS.RegisterBody) (users : List UTS.User) (newId : String)
    (keyId : UTS.KeyId) (nowS : Nat) (u : UTS.User) (tok : UTS.Token)
    (h : (UTS.register body users newId keyId nowS).1 = .created u tok) :
    u.role = body.role.getD "user" ∧
    tok.claims.role = body.role.getD "user" ∧
    ∀ (req : UTS.Request) (st : UTS.KeyCache) (now : Nat)
      (net : UTS.FetchOutcome),
      UTS.route .POST "/api/auth/register" req st now net
        = (.forwarded .restApi req, st) := by
  refine ⟨?_, ?_, fun req st now net => by
    unfold UTS.route
    rw [if_neg (by decide), if_neg (by decide), if_pos (by decide)]⟩ <;>
  · simp only [UTS.register] at h
    split at h
    · simp at h
    · split at h
      · simp at h
      · simp only [Prod.fst, UTS.RegisterResult.created.injEq] at h
        obtain ⟨hu, ht⟩ := h
        first
          | exact hu ▸ rfl
          | exact ht ▸ rfl

/-- C9, witness: registering with body role `admin` against an empty user
store yields a stored user with role `admin` and a signed credential whose
role claim is `admin`. -/
theorem register_role_from_body_witness :
    (UTS.register ⟨some "n", some "e@x", some "pw", some "admin"⟩ [] "id1" 5
        100).1
      = .created ⟨"id1", "n", "e@x", UTS.bcryptHash "pw", "admin"⟩
          (UTS.signToken "id1" "e@x" "admin" 5 100) ∧
    (⟨"id1", "n", "e@x", UTS.bcryptHash "pw", "admin"⟩ : UTS.User).role
      = (some "admin").getD "user" ∧
    (UTS.signToken "id1" "e@x" "admin" 5 100).claims.role
      = (some "admin").getD "user" :=
  ⟨rfl,
   (register_role_from_body ⟨some "n", some "e@x", some "pw", some "admin"⟩
     [] "id1" 5 100 ⟨"id1", "n", "e@x", UTS.bcryptHash "pw", "admin"⟩
     (UTS.signToken "id1" "e@x" "admin" 5 100) rfl).1,
   (register_role_from_body ⟨some "n", some "e@x", some "pw", some "admin"⟩
     [] "id1" 5 100 ⟨"id1", "n", "e@x", UTS.bcryptHash "pw", "admin"⟩
     (UTS.signToken "id1" "e@x" "admin" 5 100) rfl).2.1⟩
